import Mathlib

/-!
# DevOps Sentinel — verification of the Prober and Monitoring Orchestrator

Shallow embedding of the core of the `devops-sentinel` repository:

* `src/src/api/quick_health_check.py` — the SSRF-guarded HTTP prober
  (`QuickHealthCheck._is_safe_hostname`, `_check_http`, `check_url`);
* `src/orchestrator.py` — the monitoring orchestrator and incident state
  machine (`MonitoringOrchestrator.check_service`, `_handle_failure`,
  `_trigger_agent_response`, `run`);
* `src/config.py` — the `check_interval_seconds` default.

External effects (DNS resolution, HTTP requests, TLS checks, URL parsing and
joining, the crew pipeline, wall-clock reads) are parameters of the embedding:
the functions below are the exact decision logic of the Python source applied
to the answers those effects would give.  HTTP request emission is instrumented
with a counter so that "no network request is made" claims are provable.
-/

namespace Sentinel

/-! ## Prober: `quick_health_check.py` -/

/-- Classification flags of one resolved IP address, mirroring the
`ipaddress.ip_address` predicates queried by `_is_safe_hostname`. -/
structure IPAddr where
  is_loopback : Bool
  is_private : Bool
  is_link_local : Bool
  is_multicast : Bool
  is_reserved : Bool
  is_unspecified : Bool
  deriving DecidableEq, Repr

/-- The disjunction of restricted ranges checked at
`quick_health_check.py:57-62`. -/
def IPAddr.restricted (a : IPAddr) : Bool :=
  a.is_loopback || a.is_private || a.is_link_local ||
  a.is_multicast || a.is_reserved || a.is_unspecified

/-- An HTTP response as observed by `_check_http`: status code and the headers
it reads.  `location` is the `Location` header (`none` when absent). -/
structure HttpResponse where
  status : Nat
  location : Option String
  deriving DecidableEq, Repr

/-- The environment of external effects consumed by the prober.
`dns h = none` models `socket.getaddrinfo` raising; `host u` models
`urlparse(u).hostname` (`none` for a URL with no hostname); `join` models
`urljoin`; `net u` is the response `session.get(u)` yields; `ssl_valid u`
is the `valid` field of the dict `_check_ssl(u)` returns (that dict always
carries a `valid` key). -/
structure WebEnv where
  dns : String → Option (List IPAddr)
  host : String → Option String
  join : String → String → String
  net : String → HttpResponse
  ssl_valid : String → Bool

/-- Python `str.lower()` on the characters of a string (kernel-reducible
form of `String.toLower`). -/
def str_lower (s : String) : String := String.mk (s.data.map Char.toLower)

/-- Python `str.startswith` (kernel-reducible form of `String.startsWith`). -/
def starts_with (s p : String) : Bool := p.data.isPrefixOf s.data

/-- `QuickHealthCheck._is_safe_hostname` (quick_health_check.py:32-68):
reject an empty/absent hostname, the textual aliases, resolution failure,
and any resolved address in a restricted range. -/
def is_safe_hostname (dns : String → Option (List IPAddr)) :
    Option String → Bool
  | none => false
  | some h =>
    if h = "" then false
    else if str_lower h = "localhost" || str_lower h = "0.0.0.0" ||
        str_lower h = "::1" then false
    else
      match dns h with
      | none => false
      | some addrs => addrs.all (fun a => !a.restricted)

/-- The error message used by every SSRF rejection in the prober. -/
def forbidden_msg : String :=
  "Forbidden: Access to internal or restricted IP ranges is not allowed."

/-- Result of `_check_http`: either the forbidden-redirect dict
`{'status_code': 403, 'error': ..., 'healthy': False}` or the final response
dict (status code, redirected flag, final URL). -/
inductive HttpResult where
  | forbidden
  | final (status_code : Nat) (redirected : Bool) (final_url : String)
  deriving DecidableEq, Repr

/-- The `status_code` entry of the `_check_http` result dict. -/
def HttpResult.statusCode : HttpResult → Nat
  | .forbidden => 403
  | .final sc _ _ => sc

/-- The `error` entry of the `_check_http` result dict (absent on the final
branch). -/
def HttpResult.errorMsg : HttpResult → Option String
  | .forbidden => some forbidden_msg
  | .final _ _ _ => none

/-- `max_redirects = 5` (quick_health_check.py:163). -/
def max_redirects : Nat := 5

/-- The redirect statuses followed at quick_health_check.py:183. -/
def redirect_statuses : List Nat := [301, 302, 303, 307, 308]

/-- One run of the `while True` loop of `_check_http`
(quick_health_check.py:158-206), returning the result together with the
number of HTTP requests issued.  Each iteration first validates the current
hop's hostname (returning the 403 dict, issuing no request, if unsafe), then
issues one GET; a 3xx response with a `Location` header is followed only
while `redirect_count < max_redirects`.  `fuel` is an upper bound on the
remaining iterations used for structural recursion: the loop guard
`redirect_count < max_redirects` means at most `max_redirects -
redirect_count` further hops occur, so starting from `fuel = max_redirects +
1` and `redirect_count = 0` the artificial fuel-exhaustion branch is
unreachable, and `check_http_go_count_le` bounds the requests issued. -/
def check_http_go (env : WebEnv) (orig : String) (fuel redirect_count : Nat)
    (cur : String) : HttpResult × Nat :=
  if is_safe_hostname env.dns (env.host cur) = false then
    (HttpResult.forbidden, 0)
  else
    let resp := env.net cur
    if resp.status ∈ redirect_statuses ∧ redirect_count < max_redirects then
      match resp.location with
      | some loc =>
        match fuel with
        | fuel' + 1 =>
          let r := check_http_go env orig fuel' (redirect_count + 1)
            (env.join cur loc)
          (r.1, r.2 + 1)
        | 0 => (HttpResult.final resp.status (cur != orig) cur, 1)
      | none => (HttpResult.final resp.status (cur != orig) cur, 1)
    else (HttpResult.final resp.status (cur != orig) cur, 1)

/-- `_check_http` entered as the source does: current URL = original URL,
`redirect_count = 0`, with enough fuel for the whole loop. -/
def check_http (env : WebEnv) (url : String) : HttpResult × Nat :=
  check_http_go env url (max_redirects + 1) 0 url

/-- URL normalization at quick_health_check.py:84-85. -/
def normalize_url (url : String) : String :=
  if starts_with url "http://" || starts_with url "https://" then url
  else "https://" ++ url

/-- The fields of the `check_url` result dict that the specification talks
about.  `status_code = none` models the key being absent (the early-rejection
dict has no `status_code` key); `ssl_valid = none` models no `ssl` key (no
TLS check performed). -/
structure CheckResult where
  url : String
  status : String
  healthy : Bool
  error : Option String
  status_code : Option Nat
  ssl_valid : Option Bool
  deriving DecidableEq, Repr

/-- `QuickHealthCheck.check_url` (quick_health_check.py:70-156) on the
non-exceptional path, returning the result together with the number of HTTP
requests issued.  The URL is normalized, the hostname validated before any
network I/O (early return, zero requests), then `_check_http` runs, `ssl` is
checked for `https://` URLs, and `healthy` is recomputed as
`status_code in range(200,400) and result.get('ssl',{}).get('valid',True)`. -/
def check_url (env : WebEnv) (url0 : String) : CheckResult × Nat :=
  let url := normalize_url url0
  if is_safe_hostname env.dns (env.host url) = false then
    ({ url := url, status := "error", healthy := false,
       error := some forbidden_msg, status_code := none,
       ssl_valid := none }, 0)
  else
    let hres := check_http env url
    let sslv : Option Bool :=
      if starts_with url "https://" then some (env.ssl_valid url) else none
    let sc := hres.1.statusCode
    let healthy : Bool :=
      (decide (200 ≤ sc) && decide (sc < 400)) &&
        (match sslv with | none => true | some v => v)
    ({ url := url,
       status := if healthy then "healthy" else "unhealthy",
       healthy := healthy,
       error := hres.1.errorMsg,
       status_code := some sc,
       ssl_valid := sslv }, hres.2)

/-! ## Orchestrator: `orchestrator.py` -/

/-- Incident lifecycle states (`IncidentStatus` in the data model). -/
inductive IncidentStatus where
  | detecting
  | alerting
  | investigating
  | resolved
  deriving DecidableEq, Repr

/-- Incident severity (`IncidentSeverity`). -/
inductive IncidentSeverity where
  | high
  | medium
  deriving DecidableEq, Repr

/-- One timeline entry appended by `Incident.add_event`. -/
structure Event where
  event_type : String
  description : String
  agent : String
  deriving DecidableEq, Repr

/-- Modelled from the spec: the `Incident` record of `models.py`, which is
imported by `orchestrator.py` but is not present under `src/`.  Per spec §3 an
incident carries identity, service id, status, severity, a detected-at
timestamp set at creation, optional resolved-at, derived MTTD/MTTR in seconds
(optional, absent until computed), the error code snapshot, optional action
plan text, and an append-only timeline.  Timestamps are seconds on an abstract
monotone clock; MTTD/MTTR are integers so that a clock regression would be
observable. -/
structure Incident where
  id : Nat
  service_id : Nat
  status : IncidentStatus
  severity : IncidentSeverity
  detected_at : Nat
  resolved_at : Option Nat
  mttd_seconds : Option Int
  mttr_seconds : Option Int
  error_code : Option Nat
  action_plan : Option String
  timeline : List Event
  deriving DecidableEq, Repr

/-- The orchestrator state touched by the incident machinery:
`active_incidents` (insertion-ordered, as `dict` preserves insertion order)
and a fresh-id source standing for `uuid4` (`next_id` exceeds every stored
incident id; see `ids_bounded`). -/
structure OrchestratorState where
  active_incidents : List Incident
  next_id : Nat
  deriving DecidableEq, Repr

/-- Outcome of calling a Python function that may raise: `ok` is a normal
return, `error` a propagating exception (carrying its message). -/
inductive PyResult (α : Type) where
  | ok (a : α)
  | error (e : String)
  deriving DecidableEq, Repr

/-- The data of one unhealthy probe observation fed to `_handle_failure`,
together with the external effects its handling consumes: `crew` is the
outcome of `crew.kickoff()` (`error` models the call raising), and
`t_create`, `t_mttd`, `t_res` are the successive `datetime.utcnow()` reads at
incident construction, MTTD computation, and resolution. -/
structure CheckOutcome where
  status_code : Option Nat
  error_message : Option String
  crew : PyResult String
  t_create : Nat
  t_mttd : Nat
  t_res : Nat
  deriving DecidableEq, Repr

/-- `MonitoringOrchestrator._trigger_agent_response` (orchestrator.py:150-214):
move the incident to `ALERTING`, then `INVESTIGATING`, then run the crew.  The
source wraps none of this in `try`, so a raising `crew.kickoff()` propagates
(second component `.error`) and the incident keeps the mutations applied so
far, i.e. stays `INVESTIGATING` with no action plan, `resolved_at`, or MTTR.
On success the incident is `RESOLVED` with `resolved_at` and
`mttr_seconds = resolved_at - detected_at`. -/
def trigger_agent_response (inc : Incident) (crew : PyResult String)
    (t_res : Nat) : Incident × PyResult Unit :=
  let inc1 := { inc with
    status := IncidentStatus.alerting,
    timeline := inc.timeline ++
      [Event.mk "alerting" "Notifying team via Slack" "FirstResponder"] }
  let inc2 := { inc1 with
    status := IncidentStatus.investigating,
    timeline := inc1.timeline ++
      [Event.mk "investigating" "Agents analyzing root cause" "Investigator"] }
  match crew with
  | .error e => (inc2, PyResult.error e)
  | .ok res =>
    let inc3 := { inc2 with
      action_plan := some res,
      status := IncidentStatus.resolved,
      resolved_at := some t_res,
      mttr_seconds := some ((t_res : Int) - (inc.detected_at : Int)),
      timeline := inc2.timeline ++
        [Event.mk "resolved" "Action plan generated" "Strategist"] }
    (inc3, PyResult.ok ())

/-- The dedup scan at orchestrator.py:113-115: is some incident for this
service not yet `RESOLVED`? -/
def nonterminal_for (sid : Nat) (inc : Incident) : Bool :=
  inc.service_id == sid && !(inc.status == IncidentStatus.resolved)

/-- `has_active_incident` is the loop at orchestrator.py:113-115. -/
def has_active_incident (st : OrchestratorState) (sid : Nat) : Bool :=
  st.active_incidents.any (nonterminal_for sid)

/-- The `Incident(...)` construction plus MTTD computation and `detected`
event of `_handle_failure` (orchestrator.py:118-135).  Severity is `HIGH`
exactly when `result.status_code` is truthy and ≥ 500; `detected_at` is the
creation-time clock read (`models.py` default, modelled from the spec);
`mttd_seconds` is computed once, immediately, as `utcnow() - detected_at`. -/
def new_incident (id sid : Nat) (o : CheckOutcome) : Incident :=
  { id := id,
    service_id := sid,
    status := IncidentStatus.detecting,
    severity :=
      match o.status_code with
      | some c => if c ≠ 0 ∧ 500 ≤ c then IncidentSeverity.high
          else IncidentSeverity.medium
      | none => IncidentSeverity.medium,
    detected_at := o.t_create,
    resolved_at := none,
    mttd_seconds := some ((o.t_mttd : Int) - (o.t_create : Int)),
    mttr_seconds := none,
    error_code := o.status_code,
    action_plan := none,
    timeline := [Event.mk "detected" "Service failure detected"
      "MonitoringOrchestrator"] }

/-- `MonitoringOrchestrator._handle_failure` (orchestrator.py:110-148): if a
non-terminal incident for the service exists, return (dedup); otherwise build
the incident, store it, and trigger the response pipeline.  The pipeline
mutates the stored incident in place (the map replaces the stored record by
the pipeline's result), and an exception from the pipeline propagates out of
`_handle_failure` (second component). -/
def handle_failure (st : OrchestratorState) (sid : Nat) (o : CheckOutcome) :
    OrchestratorState × PyResult Unit :=
  if has_active_incident st sid then (st, PyResult.ok ())
  else
    let inc := new_incident st.next_id sid o
    let st1 : OrchestratorState :=
      { active_incidents := st.active_incidents ++ [inc],
        next_id := st.next_id + 1 }
    let tr := trigger_agent_response inc o.crew o.t_res
    let upd := fun (j : Incident) => if j.id = inc.id then tr.1 else j
    ({ st1 with active_incidents := st1.active_incidents.map upd }, tr.2)

/-- What one probe of one service in one cycle produced: a healthy result, an
unhealthy result (with the data its failure handling consumes), or an
exception raised inside the probe itself. -/
inductive ProbeEvent where
  | healthy
  | unhealthy (o : CheckOutcome)
  | probe_error (e : String)
  deriving DecidableEq, Repr

/-- `MonitoringOrchestrator._check_and_handle` (orchestrator.py:244-249): an
unhealthy result goes to `_handle_failure`; an exception in the probe or the
handler propagates. -/
def check_and_handle (st : OrchestratorState) (sid : Nat) (ev : ProbeEvent) :
    OrchestratorState × PyResult Unit :=
  match ev with
  | .healthy => (st, PyResult.ok ())
  | .unhealthy o => handle_failure st sid o
  | .probe_error e => (st, PyResult.error e)

/-- One cycle of `run()` (orchestrator.py:226-234): one `_check_and_handle`
task per active service, joined by `asyncio.gather`.  `gather` without
`return_exceptions` lets every task run to completion but re-raises the first
exception to `run()`; incident handling is serialized per service, so the
tasks are folded in order and the first error is reported. -/
def run_cycle (st : OrchestratorState) :
    List (Nat × ProbeEvent) → OrchestratorState × PyResult Unit
  | [] => (st, PyResult.ok ())
  | (sid, ev) :: rest =>
    let r1 := check_and_handle st sid ev
    let r2 := run_cycle r1.1 rest
    (r2.1, match r1.2 with
      | PyResult.ok _ => r2.2
      | PyResult.error e => PyResult.error e)

/-- The `while self.is_running` loop of `run()` (orchestrator.py:216-242) over
a finite script of cycles.  An exception escaping `asyncio.gather` is not
caught anywhere in `run()`, so it ends the loop: the remaining cycles are not
executed. -/
def run_cycles (st : OrchestratorState) :
    List (List (Nat × ProbeEvent)) → OrchestratorState × PyResult Unit
  | [] => (st, PyResult.ok ())
  | c :: rest =>
    let r := run_cycle st c
    match r.2 with
    | PyResult.ok _ => run_cycles r.1 rest
    | PyResult.error e => (r.1, PyResult.error e)

/-! ## `check_service` result parsing and `run()` sleep interval -/

/-- Substring containment, the semantics of Python's `in` on strings. -/
def strContains (hay needle : String) : Bool :=
  go needle.data hay.data
where
  go (n : List Char) : List Char → Bool
    | [] => n.isEmpty
    | c :: rest => n.isPrefixOf (c :: rest) || go n rest

/-- The health parse of `MonitoringOrchestrator.check_service`
(orchestrator.py:81): `"FAILED" not in result_str and "200" in result_str`. -/
def parse_is_healthy (result_str : String) : Bool :=
  !(strContains result_str "FAILED") && strContains result_str "200"

/-- The per-service fields `run()` reads from `ServiceConfig`. -/
structure ServiceConfig where
  check_interval : Nat
  is_active : Bool
  deriving DecidableEq, Repr

/-- The sleep computation at orchestrator.py:237-240: Python
`min((s.check_interval for s in services if s.is_active),
default=settings.check_interval_seconds)`. -/
def sleep_interval (services : List ServiceConfig)
    (default_interval : Nat) : Nat :=
  match (services.filter (fun s => s.is_active)).map
      (fun s => s.check_interval) with
  | [] => default_interval
  | x :: xs => xs.foldl min x

/-! ## Derived predicates and instrumentation -/

/-- Does a `PyResult` model a raised exception? -/
def PyResult.isError {α : Type} : PyResult α → Bool
  | .error _ => true
  | .ok _ => false

/-- Incident ids stored in the state are strictly below the fresh-id source
(the model of `uuid4` freshness). -/
def ids_bounded (st : OrchestratorState) : Prop :=
  ∀ inc ∈ st.active_incidents, inc.id < st.next_id

/-- The deduplication invariant of spec §3: for any service, at most one
non-terminal incident exists. -/
def dedup_ok (st : OrchestratorState) : Prop :=
  ∀ sid : Nat,
    (st.active_incidents.filter (nonterminal_for sid)).length ≤ 1

/-- Progression order of `IncidentStatus` (spec §4.3). -/
def status_rank : IncidentStatus → Nat
  | .detecting => 0
  | .alerting => 1
  | .investigating => 2
  | .resolved => 3

/-- The statuses `_trigger_agent_response` assigns to the incident, in program
order (orchestrator.py:157, 182, 197): `ALERTING`, `INVESTIGATING`, and —
only when `crew.kickoff()` returns instead of raising — `RESOLVED`. -/
def trigger_assigned_statuses (crew : PyResult String) : List IncidentStatus :=
  [IncidentStatus.alerting, IncidentStatus.investigating] ++
    match crew with
    | PyResult.ok _ => [IncidentStatus.resolved]
    | PyResult.error _ => []

/-- The property test of spec §8: inject consecutive unhealthy probe results
for one service by repeated calls of the failure handler. -/
def inject (sid : Nat) : OrchestratorState → List CheckOutcome →
    OrchestratorState
  | st, [] => st
  | st, o :: os => inject sid (handle_failure st sid o).1 os

/-- Clock monotonicity across the `datetime.utcnow()` reads consumed by one
failure handling. -/
def clock_ok (o : CheckOutcome) : Prop :=
  o.t_create ≤ o.t_mttd ∧ o.t_create ≤ o.t_res

/-- Every unhealthy probe in a script satisfies `clock_ok`. -/
def script_clock_ok (script : List (List (Nat × ProbeEvent))) : Prop :=
  ∀ c ∈ script, ∀ p ∈ c, ∀ o : CheckOutcome,
    p.2 = ProbeEvent.unhealthy o → clock_ok o

/-- The MTTD/MTTR shape of spec §3: MTTD present and ≥ 0; MTTR absent while
not `RESOLVED`, present and ≥ 0 once `RESOLVED`. -/
def mttd_mttr_ok (inc : Incident) : Prop :=
  (∃ d : Int, inc.mttd_seconds = some d ∧ 0 ≤ d) ∧
  (inc.status ≠ IncidentStatus.resolved → inc.mttr_seconds = none) ∧
  (inc.status = IncidentStatus.resolved →
    ∃ r : Int, inc.mttr_seconds = some r ∧ 0 ≤ r)

/-- `mttd_mttr_ok` for every stored incident. -/
def timing_ok (st : OrchestratorState) : Prop :=
  ∀ inc ∈ st.active_incidents, mttd_mttr_ok inc

/-! ## Concrete data for witnesses and counterexamples -/

/-- A public (unrestricted) resolved address. -/
def pub_addr : IPAddr :=
  { is_loopback := false, is_private := false, is_link_local := false,
    is_multicast := false, is_reserved := false, is_unspecified := false }

/-- A loopback address, restricted. -/
def loopback_addr : IPAddr :=
  { is_loopback := true, is_private := false, is_link_local := false,
    is_multicast := false, is_reserved := false, is_unspecified := false }

/-- Environment whose every URL has hostname `localhost` and whose DNS always
fails. -/
def env_localhost : WebEnv :=
  { dns := fun _ => none,
    host := fun _ => some "localhost",
    join := fun u _ => u,
    net := fun _ => { status := 200, location := none },
    ssl_valid := fun _ => true }

/-- Environment of a safe host answering 200. -/
def env_ok : WebEnv :=
  { dns := fun _ => some [pub_addr],
    host := fun _ => some "public.example",
    join := fun u _ => u,
    net := fun _ => { status := 200, location := none },
    ssl_valid := fun _ => true }

/-- Environment where the safe URL `http://public.example/a` answers with a
302 redirect to `http://internal/admin`, whose hostname resolves to loopback
only. -/
def env_redirect_unsafe : WebEnv :=
  { dns := fun h => if h = "internal" then some [loopback_addr]
      else some [pub_addr],
    host := fun u => if u = "http://internal/admin" then some "internal"
      else some "public.example",
    join := fun _ loc => loc,
    net := fun u => if u = "http://public.example/a" then
        { status := 302, location := some "http://internal/admin" }
      else { status := 200, location := none },
    ssl_valid := fun _ => true }

/-- Environment where every (safe) URL answers 301 with a `Location` header:
an unbounded redirect chain. -/
def env_loop : WebEnv :=
  { dns := fun _ => some [pub_addr],
    host := fun _ => some "public.example",
    join := fun u _ => u ++ "r",
    net := fun _ => { status := 301, location := some "next" },
    ssl_valid := fun _ => true }

/-- An unhealthy probe observation whose response pipeline raises. -/
def o_fail : CheckOutcome :=
  { status_code := some 503,
    error_message := some "Health check FAILED with Status Code: 503",
    crew := PyResult.error "crew kickoff failed",
    t_create := 100, t_mttd := 100, t_res := 100 }

/-- An unhealthy probe observation whose response pipeline succeeds. -/
def o_ok : CheckOutcome :=
  { status_code := some 500,
    error_message := some "Health check FAILED with Status Code: 500",
    crew := PyResult.ok "action plan",
    t_create := 10, t_mttd := 11, t_res := 20 }

/-- The empty orchestrator state. -/
def st0 : OrchestratorState := { active_incidents := [], next_id := 0 }

/-- A resolved incident on file, used to witness terminality. -/
def inc_resolved : Incident :=
  { id := 0, service_id := 1, status := IncidentStatus.resolved,
    severity := IncidentSeverity.high, detected_at := 5,
    resolved_at := some 6, mttd_seconds := some 0, mttr_seconds := some 1,
    error_code := some 500, action_plan := some "plan", timeline := [] }

/-- A state holding one resolved incident. -/
def st1 : OrchestratorState :=
  { active_incidents := [inc_resolved], next_id := 1 }

/-! ## Helper lemmas -/

lemma foldl_min_le_init (x : Nat) (xs : List Nat) : xs.foldl min x ≤ x := by
  induction xs generalizing x with
  | nil => simp
  | cons y ys ih =>
    simpa using le_trans (ih (min x y)) (min_le_left x y)

lemma foldl_min_le_mem (x : Nat) (xs : List Nat) :
    ∀ y ∈ xs, xs.foldl min x ≤ y := by
  induction xs generalizing x with
  | nil => simp
  | cons z zs ih =>
    intro y hy
    rcases List.mem_cons.mp hy with rfl | hy
    · simpa using le_trans (foldl_min_le_init (min x y) zs) (min_le_right x y)
    · simpa using ih (min x z) y hy

lemma foldl_min_attained (x : Nat) (xs : List Nat) :
    xs.foldl min x = x ∨ xs.foldl min x ∈ xs := by
  induction xs generalizing x with
  | nil => left; rfl
  | cons z zs ih =>
    rw [List.foldl_cons]
    rcases ih (min x z) with h | h
    · rcases min_choice x z with hm | hm
      · left; rw [h, hm]
      · right; rw [h, hm]; exact List.mem_cons_self z zs
    · right; exact List.mem_cons_of_mem z h

/-! ## Claim theorems -/

/-- C7: `MonitoringOrchestrator.check_service` classifies a tool output
string as healthy exactly when it does not contain `"FAILED"` and does
contain `"200"`; consequently any rendered output lacking the substring
`"200"` is classified unhealthy. -/
theorem check_service_health_is_string_parse :
    (∀ s : String, parse_is_healthy s = true ↔
      (strContains s "FAILED" = false ∧ strContains s "200" = true)) ∧
    (∀ s : String, strContains s "200" = false →
      parse_is_healthy s = false) := by
  constructor
  · intro s
    simp [parse_is_healthy, Bool.and_eq_true, Bool.not_eq_true']
  · intro s h
    simp [parse_is_healthy, h]

/-- Witness for C7: the rendered output of a 204 response contains no
`"200"`, so it is classified unhealthy even though 204 lies in [200,400). -/
theorem check_service_health_is_string_parse_witness :
    strContains "Health check SUCCESS with Status Code: 204" "200" = false ∧
    parse_is_healthy "Health check SUCCESS with Status Code: 204" = false :=
  ⟨by decide,
    check_service_health_is_string_parse.2
      "Health check SUCCESS with Status Code: 204" (by decide)⟩

/-- C10: after each cycle `run()` sleeps for the minimum `check_interval`
among active services, and for the configured default
(`settings.check_interval_seconds`) when no service is active. -/
theorem run_sleep_is_min_active_interval :
    ∀ (services : List ServiceConfig) (d : Nat),
      ((∀ s ∈ services, s.is_active = false) →
        sleep_interval services d = d) ∧
      (∀ s ∈ services, s.is_active = true →
        sleep_interval services d ≤ s.check_interval) ∧
      ((∃ s, s ∈ services ∧ s.is_active = true) →
        ∃ s, s ∈ services ∧ s.is_active = true ∧
          sleep_interval services d = s.check_interval) := by
  intro services d
  refine ⟨?_, ?_, ?_⟩
  · intro h
    have hf : services.filter (fun s => s.is_active) = [] := by
      rw [List.filter_eq_nil_iff]
      intro s hs
      simp [h s hs]
    simp [sleep_interval, hf]
  · intro s hs ha
    have hmem : s.check_interval ∈
        (services.filter (fun s => s.is_active)).map
          (fun s => s.check_interval) := by
      exact List.mem_map_of_mem _ (List.mem_filter.mpr ⟨hs, by simp [ha]⟩)
    rcases hl : (services.filter (fun s => s.is_active)).map
        (fun s => s.check_interval) with _ | ⟨x, xs⟩
    · rw [hl] at hmem
      exact absurd hmem (List.not_mem_nil _)
    · rw [hl] at hmem
      have : sleep_interval services d = xs.foldl min x := by
        simp [sleep_interval, hl]
      rw [this]
      rcases List.mem_cons.mp hmem with heq | hmem2

      · rw [← heq]
        exact foldl_min_le_init _ _
      · exact foldl_min_le_mem _ _ _ hmem2
  · rintro ⟨s, hs, ha⟩
    have hmem : s.check_interval ∈
        (services.filter (fun s => s.is_active)).map
          (fun s => s.check_interval) :=
      List.mem_map_of_mem _ (List.mem_filter.mpr ⟨hs, by simp [ha]⟩)
    rcases hl : (services.filter (fun s => s.is_active)).map
        (fun s => s.check_interval) with _ | ⟨x, xs⟩
    · rw [hl] at hmem
      exact absurd hmem (List.not_mem_nil _)
    · have hval : sleep_interval services d = xs.foldl min x := by
        simp [sleep_interval, hl]
      have hmem3 : sleep_interval services d ∈
          (services.filter (fun s => s.is_active)).map
            (fun s => s.check_interval) := by
        rw [hl, hval]
        rcases foldl_min_attained x xs with h | h
        · rw [h]; exact List.mem_cons_self x xs
        · exact List.mem_cons_of_mem x h
      rcases List.mem_map.mp hmem3 with ⟨t, ht, hteq⟩
      rcases List.mem_filter.mp ht with ⟨hts, hta⟩
      exact ⟨t, hts, by simpa using hta, hteq.symm⟩

/-- Witness for C10: a mixed registry takes the minimum active interval, an
all-inactive registry takes the default. -/
theorem run_sleep_is_min_active_interval_witness :
    sleep_interval [⟨30, true⟩, ⟨10, true⟩, ⟨5, false⟩] 99 ≤ 10 ∧
    sleep_interval [⟨7, false⟩] 99 = 99 := by
  constructor
  · exact (run_sleep_is_min_active_interval
      [⟨30, true⟩, ⟨10, true⟩, ⟨5, false⟩] 99).2.1 ⟨10, true⟩ (by decide)
      (by decide)
  · exact (run_sleep_is_min_active_interval [⟨7, false⟩] 99).1 (by decide)

/-- C1: a URL whose hostname is a local alias, fails DNS resolution, or
resolves to at least one restricted address is rejected by `check_url` with
`healthy = false` and the forbidden-target error, and zero HTTP requests are
issued. -/
theorem forbidden_target_rejected_without_request :
    ∀ (env : WebEnv) (url0 : String) (hn : String),
      env.host (normalize_url url0) = some hn →
      (hn = "localhost" ∨ hn = "0.0.0.0" ∨ hn = "::1" ∨
        env.dns hn = none ∨
        (∃ addrs a, env.dns hn = some addrs ∧ a ∈ addrs ∧
          a.restricted = true)) →
      (check_url env url0).1.healthy = false ∧
      (check_url env url0).1.error = some forbidden_msg ∧
      (check_url env url0).2 = 0 := by
  intro env url0 hn hhost hd
  have hsafe : is_safe_hostname env.dns (some hn) = false := by
    rcases hd with rfl | rfl | rfl | hdns | ⟨addrs, a, hda, hmem, hres⟩
    · rfl
    · rfl
    · rfl
    · simp only [is_safe_hostname]
      split
      · rfl
      · split
        · rfl
        · rw [hdns]
    · simp only [is_safe_hostname]
      split
      · rfl
      · split
        · rfl
        · rw [hda]
          have : ¬ (∀ x ∈ addrs, (!x.restricted) = true) := by
            intro hall
            have := hall a hmem
            simp [hres] at this
          simpa [List.all_eq_true] using this
  simp [check_url, hhost, hsafe]

/-- Witness for C1: in an environment where every URL parses to hostname
`localhost` (and DNS fails anyway), `check_url` rejects with the forbidden
error and issues no request. -/
theorem forbidden_target_rejected_without_request_witness :
    env_localhost.host (normalize_url "http://x") = some "localhost" ∧
    (check_url env_localhost "http://x").1.healthy = false ∧
    (check_url env_localhost "http://x").1.error = some forbidden_msg ∧
    (check_url env_localhost "http://x").2 = 0 :=
  ⟨by decide,
    forbidden_target_rejected_without_request env_localhost "http://x"
      "localhost" (by decide) (Or.inl rfl)⟩

/-- C4: every hop of `_check_http` is validated before being requested: an
unsafe current hop returns the 403 forbidden dict with no request at all, and
a safe hop whose response redirects to an unsafe target returns the 403
forbidden dict after the single request to the safe hop — the redirect is
never followed, whatever the original URL was. -/
theorem redirect_hop_revalidated :
    ∀ (env : WebEnv) (orig cur loc : String) (fuel rc : Nat),
      (is_safe_hostname env.dns (env.host cur) = false →
        check_http_go env orig fuel rc cur = (HttpResult.forbidden, 0)) ∧
      (is_safe_hostname env.dns (env.host cur) = true →
        (env.net cur).status ∈ redirect_statuses →
        (env.net cur).location = some loc →
        rc < max_redirects →
        0 < fuel →
        is_safe_hostname env.dns (env.host (env.join cur loc)) = false →
        check_http_go env orig fuel rc cur = (HttpResult.forbidden, 1) ∧
        (check_http_go env orig fuel rc cur).1.statusCode = 403 ∧
        (check_http_go env orig fuel rc cur).1.errorMsg =
          some forbidden_msg) := by
  intro env orig cur loc fuel rc
  constructor
  · intro h
    rw [check_http_go]
    simp [h]
  · intro hsafe hred hloc hrc hfuel htarget
    cases fuel with
    | zero => exact absurd hfuel (lt_irrefl 0)
    | succ f =>
      have hrec : check_http_go env orig f (rc + 1) (env.join cur loc) =
          (HttpResult.forbidden, 0) := by
        rw [check_http_go]
        simp [htarget]
      have hmain : check_http_go env orig (f + 1) rc cur =
          (HttpResult.forbidden, 1) := by
        rw [check_http_go]
        simp [hsafe, hred, hrc, hloc, hrec]
      refine ⟨hmain, ?_, ?_⟩
      · rw [hmain]
        rfl
      · rw [hmain]
        rfl


/-- Witness for C4: a safe host 302-redirecting to a loopback-only hostname
yields the 403 forbidden result after exactly one request. -/
theorem redirect_hop_revalidated_witness :
    check_http env_redirect_unsafe "http://public.example/a" =
      (HttpResult.forbidden, 1) ∧
    (check_http env_redirect_unsafe "http://public.example/a").1.statusCode =
      403 := by
  have h := (redirect_hop_revalidated env_redirect_unsafe
    "http://public.example/a" "http://public.example/a"
    "http://internal/admin" (max_redirects + 1) 0).2
    (by decide) (by decide) (by decide) (by decide) (by decide) (by decide)
  exact ⟨h.1, h.2.1⟩

/-- Counterexample to C3 as stated: in an environment where every response is
a 301 redirect, the chain exceeds 5 hops and `_check_http` returns the raw
3xx response as the final result — `status_code = 301`, no `error` entry at
all — instead of any explicit redirect-loop error. -/
theorem redirect_cap_returns_raw_redirect :
    (check_http env_loop "http://a").1.errorMsg = none ∧
    (check_http env_loop "http://a").1.statusCode = 301 ∧
    (check_http env_loop "http://a").1 =
      HttpResult.final 301 true "http://arrrrr" ∧
    (check_http env_loop "http://a").2 = 6 := by
  decide

lemma check_http_go_zero (env : WebEnv) (orig : String) (rc : Nat)
    (cur : String) :
    check_http_go env orig 0 rc cur =
      if is_safe_hostname env.dns (env.host cur) = false then
        (HttpResult.forbidden, 0)
      else (HttpResult.final (env.net cur).status (cur != orig) cur, 1) := by
  rw [check_http_go]
  split
  · rfl
  · dsimp only
    split
    · cases hl : (env.net cur).location <;> simp [hl]
    · rfl

lemma check_http_go_succ (env : WebEnv) (orig : String) (f rc : Nat)
    (cur : String) :
    check_http_go env orig (f + 1) rc cur =
      if is_safe_hostname env.dns (env.host cur) = false then
        (HttpResult.forbidden, 0)
      else if (env.net cur).status ∈ redirect_statuses ∧
          rc < max_redirects then
        match (env.net cur).location with
        | some loc =>
          ((check_http_go env orig f (rc + 1) (env.join cur loc)).1,
            (check_http_go env orig f (rc + 1) (env.join cur loc)).2 + 1)
        | none => (HttpResult.final (env.net cur).status (cur != orig) cur, 1)
      else (HttpResult.final (env.net cur).status (cur != orig) cur, 1) := by
  rw [check_http_go]

lemma check_http_go_count_le (env : WebEnv) (orig : String) :
    ∀ (fuel rc : Nat) (cur : String), rc ≤ max_redirects →
      (check_http_go env orig fuel rc cur).2 ≤ max_redirects + 1 - rc := by
  intro fuel
  induction fuel with
  | zero =>
    intro rc cur h
    rw [check_http_go_zero]
    split
    · simp
    · simp
      omega
  | succ f ih =>
    intro rc cur h
    rw [check_http_go_succ]
    split
    · simp
    · split
      · rename_i hguard
        cases hl : (env.net cur).location with
        | none =>
          simp [hl]
          omega
        | some loc =>
          simp only [hl]
          have hr := ih (rc + 1) (env.join cur loc) (by omega)
          have hlt : rc < max_redirects := hguard.2
          simp
          omega
      · simp
        omega

/-- C3 (amended): the redirect-following loop of `_check_http` is bounded —
at most `max_redirects + 1 = 6` HTTP requests are ever issued — and once
`redirect_count` has reached the cap a redirect response is no longer
followed: for a safe hop the raw response itself is returned as the final
result (carrying its 3xx status code and no error entry), not an explicit
redirect-loop error. -/
theorem redirect_following_bounded :
    ∀ (env : WebEnv) (url : String),
      (check_http env url).2 ≤ max_redirects + 1 ∧
      ∀ (orig cur : String) (fuel rc : Nat),
        max_redirects ≤ rc →
        is_safe_hostname env.dns (env.host cur) = true →
        check_http_go env orig fuel rc cur =
          (HttpResult.final (env.net cur).status (cur != orig) cur, 1) := by
  intro env url
  constructor
  · simpa [check_http] using
      check_http_go_count_le env url (max_redirects + 1) 0 url (by omega)
  · intro orig cur fuel rc hrc hsafe
    rw [check_http_go]
    rw [if_neg (by simp [hsafe])]
    rw [if_neg (by rintro ⟨-, h⟩; omega)]

/-- Witness for C3 (amended): the looping environment issues exactly 6 ≤ 6
requests, and at `redirect_count = 7 ≥ 5` the 301 response is returned
directly. -/
theorem redirect_following_bounded_witness :
    (check_http env_loop "http://b").2 ≤ max_redirects + 1 ∧
    check_http_go env_loop "http://b" 3 7 "http://b" =
      (HttpResult.final 301 false "http://b", 1) := by
  refine ⟨(redirect_following_bounded env_loop "http://b").1, ?_⟩
  have h := (redirect_following_bounded env_loop "http://b").2
    "http://b" "http://b" 3 7 (by decide) (by decide)
  rw [h]
  decide

/-- C6: for a probe that received an HTTP response (the result carries a
status code), `check_url` reports `healthy = true` exactly when the final
status code lies in [200,400) and either no TLS check was performed or the
TLS check reported the certificate valid. -/
theorem check_url_healthy_iff :
    ∀ (env : WebEnv) (url0 : String) (sc : Nat),
      (check_url env url0).1.status_code = some sc →
      ((check_url env url0).1.healthy = true ↔
        (200 ≤ sc ∧ sc < 400 ∧
          ∀ v, (check_url env url0).1.ssl_valid = some v → v = true)) := by
  intro env url0 sc hsc
  by_cases hsafe :
      is_safe_hostname env.dns (env.host (normalize_url url0)) = false
  · simp [check_url, hsafe] at hsc
  · have hs : is_safe_hostname env.dns (env.host (normalize_url url0)) =
        true := by
      revert hsafe
      cases is_safe_hostname env.dns (env.host (normalize_url url0)) <;> simp
    simp only [check_url, hs] at hsc ⊢
    rw [if_neg (by simp)] at hsc ⊢
    simp only [Option.some.injEq] at hsc
    by_cases hh : starts_with (normalize_url url0) "https://" = true
    · simp only [hh, if_pos] at *
      simp [hsc, Bool.and_eq_true, decide_eq_true_eq]
      tauto
    · have hh' : starts_with (normalize_url url0) "https://" = false := by
        revert hh
        cases starts_with (normalize_url url0) "https://" <;> simp
      simp only [hh'] at *
      simp [hsc, Bool.and_eq_true, decide_eq_true_eq]

/-- Witness for C6: a plain-HTTP 200 probe in a safe environment is healthy,
and the equivalence instantiates at it. -/
theorem check_url_healthy_iff_witness :
    (check_url env_ok "http://a").1.status_code = some 200 ∧
    ((check_url env_ok "http://a").1.healthy = true ↔
      (200 ≤ 200 ∧ 200 < 400 ∧
        ∀ v, (check_url env_ok "http://a").1.ssl_valid = some v →
          v = true)) :=
  ⟨by decide, check_url_healthy_iff env_ok "http://a" 200 (by decide)⟩

/-! ## Orchestrator lemmas -/

lemma map_id_of_mem {l : List Incident} {f : Incident → Incident}
    (h : ∀ j ∈ l, f j = j) : l.map f = l := by
  induction l with
  | nil => rfl
  | cons a t ih =>
    rw [List.map_cons, h a (List.mem_cons_self a t),
      ih (fun j hj => h j (List.mem_cons_of_mem a hj))]

lemma trigger_id (inc : Incident) (crew : PyResult String) (t : Nat) :
    (trigger_agent_response inc crew t).1.id = inc.id := by
  cases crew <;> rfl

lemma trigger_sid (inc : Incident) (crew : PyResult String) (t : Nat) :
    (trigger_agent_response inc crew t).1.service_id = inc.service_id := by
  cases crew <;> rfl

lemma trigger_mttd (inc : Incident) (crew : PyResult String) (t : Nat) :
    (trigger_agent_response inc crew t).1.mttd_seconds = inc.mttd_seconds := by
  cases crew <;> rfl

lemma trigger_detected_at (inc : Incident) (crew : PyResult String) (t : Nat) :
    (trigger_agent_response inc crew t).1.detected_at = inc.detected_at := by
  cases crew <;> rfl

lemma trigger_status_error (inc : Incident) (e : String) (t : Nat) :
    (trigger_agent_response inc (PyResult.error e) t).1.status =
      IncidentStatus.investigating := rfl

lemma trigger_status_ok (inc : Incident) (r : String) (t : Nat) :
    (trigger_agent_response inc (PyResult.ok r) t).1.status =
      IncidentStatus.resolved := rfl

lemma trigger_mttr_error (inc : Incident) (e : String) (t : Nat) :
    (trigger_agent_response inc (PyResult.error e) t).1.mttr_seconds =
      inc.mttr_seconds := rfl

lemma trigger_mttr_ok (inc : Incident) (r : String) (t : Nat) :
    (trigger_agent_response inc (PyResult.ok r) t).1.mttr_seconds =
      some ((t : Int) - (inc.detected_at : Int)) := rfl

lemma trigger_resolved_at_error (inc : Incident) (e : String) (t : Nat) :
    (trigger_agent_response inc (PyResult.error e) t).1.resolved_at =
      inc.resolved_at := rfl

lemma trigger_snd_error (inc : Incident) (e : String) (t : Nat) :
    (trigger_agent_response inc (PyResult.error e) t).2 =
      PyResult.error e := rfl

lemma trigger_snd_ok (inc : Incident) (r : String) (t : Nat) :
    (trigger_agent_response inc (PyResult.ok r) t).2 = PyResult.ok () := rfl

lemma new_incident_id (id sid : Nat) (o : CheckOutcome) :
    (new_incident id sid o).id = id := rfl

lemma new_incident_sid (id sid : Nat) (o : CheckOutcome) :
    (new_incident id sid o).service_id = sid := rfl

lemma handle_failure_dedup_case (st : OrchestratorState) (sid : Nat)
    (o : CheckOutcome) (h : has_active_incident st sid = true) :
    handle_failure st sid o = (st, PyResult.ok ()) := by
  simp [handle_failure, h]

lemma handle_failure_create_case (st : OrchestratorState) (sid : Nat)
    (o : CheckOutcome) (h : has_active_incident st sid = false)
    (hb : ids_bounded st) :
    handle_failure st sid o =
      ({ active_incidents := st.active_incidents ++
          [(trigger_agent_response (new_incident st.next_id sid o)
              o.crew o.t_res).1],
         next_id := st.next_id + 1 },
        (trigger_agent_response (new_incident st.next_id sid o)
          o.crew o.t_res).2) := by
  unfold handle_failure
  rw [if_neg (by simp [h])]
  have hmap : ∀ j ∈ st.active_incidents,
      (fun (j : Incident) =>
        if j.id = (new_incident st.next_id sid o).id then
          (trigger_agent_response (new_incident st.next_id sid o)
            o.crew o.t_res).1
        else j) j = j := by
    intro j hj
    have hlt : j.id < st.next_id := hb j hj
    dsimp only
    rw [new_incident_id, if_neg (by omega)]
  simp only [List.map_append, List.map_cons, List.map_nil,
    eq_self_iff_true, if_true]
  rw [map_id_of_mem hmap]

lemma handle_failure_ids_bounded (st : OrchestratorState) (sid : Nat)
    (o : CheckOutcome) (hb : ids_bounded st) :
    ids_bounded (handle_failure st sid o).1 := by
  by_cases h : has_active_incident st sid = true
  · rw [handle_failure_dedup_case st sid o h]
    exact hb
  · have hf : has_active_incident st sid = false := by simpa using h
    rw [handle_failure_create_case st sid o hf hb]
    intro inc hm
    rcases List.mem_append.mp hm with h1 | h2
    · exact Nat.lt_succ_of_lt (hb inc h1)
    · rw [List.mem_singleton] at h2
      subst h2
      rw [trigger_id, new_incident_id]
      exact Nat.lt_succ_self _

lemma handle_failure_mem (st : OrchestratorState) (sid : Nat)
    (o : CheckOutcome) (hb : ids_bounded st) :
    ∀ inc ∈ st.active_incidents,
      inc ∈ (handle_failure st sid o).1.active_incidents := by
  intro inc hm
  by_cases h : has_active_incident st sid = true
  · rw [handle_failure_dedup_case st sid o h]
    exact hm
  · have hf : has_active_incident st sid = false := by simpa using h
    rw [handle_failure_create_case st sid o hf hb]
    exact List.mem_append_left _ hm

lemma handle_failure_dedup_ok (st : OrchestratorState) (sid : Nat)
    (o : CheckOutcome) (hb : ids_bounded st) (hd : dedup_ok st) :
    dedup_ok (handle_failure st sid o).1 := by
  by_cases h : has_active_incident st sid = true
  · rw [handle_failure_dedup_case st sid o h]
    exact hd
  · have hf : has_active_incident st sid = false := by simpa using h
    rw [handle_failure_create_case st sid o hf hb]
    intro sid2
    simp only [List.filter_append, List.length_append]
    by_cases hs : sid2 = sid
    · subst hs
      have hany := hf
      unfold has_active_incident at hany
      rw [List.any_eq_false] at hany
      have hnil : st.active_incidents.filter (nonterminal_for sid2) = [] := by
        rw [List.filter_eq_nil_iff]
        intro a ha
        simpa using hany a ha
      rw [hnil]
      simpa using le_trans (List.length_filter_le _ _) (by simp)
    · have hx : nonterminal_for sid2
          (trigger_agent_response (new_incident st.next_id sid o)
            o.crew o.t_res).1 = false := by
        unfold nonterminal_for
        rw [trigger_sid, new_incident_sid]
        simp
        intro hEq
        exact absurd hEq.symm hs
      simp only [List.filter_cons, hx, List.filter_nil]
      simpa using hd sid2

lemma handle_failure_count_create (st : OrchestratorState) (sid : Nat)
    (o : CheckOutcome) (hb : ids_bounded st)
    (hf : has_active_incident st sid = false) :
    ((handle_failure st sid o).1.active_incidents.filter
        (fun i => i.service_id == sid)).length =
      (st.active_incidents.filter
        (fun i => i.service_id == sid)).length + 1 := by
  rw [handle_failure_create_case st sid o hf hb]
  have hx : ((trigger_agent_response (new_incident st.next_id sid o)
      o.crew o.t_res).1.service_id == sid) = true := by
    rw [trigger_sid, new_incident_sid]
    simp
  simp [List.filter_append, hx]

lemma handle_failure_active_after_error (st : OrchestratorState) (sid : Nat)
    (o : CheckOutcome) (e : String) (hb : ids_bounded st)
    (hf : has_active_incident st sid = false)
    (hcrew : o.crew = PyResult.error e) :
    has_active_incident (handle_failure st sid o).1 sid = true := by
  rw [handle_failure_create_case st sid o hf hb]
  have hx : nonterminal_for sid
      (trigger_agent_response (new_incident st.next_id sid o)
        o.crew o.t_res).1 = true := by
    unfold nonterminal_for
    rw [trigger_sid, new_incident_sid, hcrew, trigger_status_error]
    simp
  unfold has_active_incident
  simp [List.any_append, hx]

lemma handle_failure_timing (st : OrchestratorState) (sid : Nat)
    (o : CheckOutcome) (hb : ids_bounded st) (ht : timing_ok st)
    (hc : clock_ok o) : timing_ok (handle_failure st sid o).1 := by
  by_cases h : has_active_incident st sid = true
  · rw [handle_failure_dedup_case st sid o h]
    exact ht
  · have hf : has_active_incident st sid = false := by simpa using h
    rw [handle_failure_create_case st sid o hf hb]
    intro inc hm
    rcases List.mem_append.mp hm with h1 | h2
    · exact ht inc h1
    · rw [List.mem_singleton] at h2
      subst h2
      refine ⟨⟨(o.t_mttd : Int) - (o.t_create : Int), ?_, ?_⟩, ?_, ?_⟩
      · rw [trigger_mttd]
        rfl
      · have := hc.1
        omega
      · intro hne
        cases hcrew : o.crew with
        | ok r =>
          rw [hcrew, trigger_status_ok] at hne
          exact absurd rfl hne
        | error e =>
          rw [trigger_mttr_error]
          rfl
      · intro hres
        cases hcrew : o.crew with
        | error e =>
          rw [hcrew, trigger_status_error] at hres
          exact absurd hres (by intro hx; cases hx)
        | ok r =>
          refine ⟨(o.t_res : Int) - (o.t_create : Int), ?_, ?_⟩
          · rw [trigger_mttr_ok]
            rfl
          · have := hc.2
            omega

lemma inject_of_active (sid : Nat) :
    ∀ (os : List CheckOutcome) (st : OrchestratorState),
      has_active_incident st sid = true → inject sid st os = st := by
  intro os
  induction os with
  | nil =>
    intro st h
    rfl
  | cons o os ih =>
    intro st h
    show inject sid (handle_failure st sid o).1 os = st
    rw [handle_failure_dedup_case st sid o h]
    exact ih st h

lemma cah_ids_bounded (st : OrchestratorState) (sid : Nat) (ev : ProbeEvent)
    (hb : ids_bounded st) : ids_bounded (check_and_handle st sid ev).1 := by
  cases ev with
  | healthy => exact hb
  | unhealthy o => exact handle_failure_ids_bounded st sid o hb
  | probe_error e => exact hb

lemma cah_mem (st : OrchestratorState) (sid : Nat) (ev : ProbeEvent)
    (hb : ids_bounded st) :
    ∀ inc ∈ st.active_incidents,
      inc ∈ (check_and_handle st sid ev).1.active_incidents := by
  cases ev with
  | healthy => intro inc hm; exact hm
  | unhealthy o => exact handle_failure_mem st sid o hb
  | probe_error e => intro inc hm; exact hm

lemma cah_dedup_ok (st : OrchestratorState) (sid : Nat) (ev : ProbeEvent)
    (hb : ids_bounded st) (hd : dedup_ok st) :
    dedup_ok (check_and_handle st sid ev).1 := by
  cases ev with
  | healthy => exact hd
  | unhealthy o => exact handle_failure_dedup_ok st sid o hb hd
  | probe_error e => exact hd

lemma cah_timing (st : OrchestratorState) (sid : Nat) (ev : ProbeEvent)
    (hb : ids_bounded st) (ht : timing_ok st)
    (hc : ∀ o : CheckOutcome, ev = ProbeEvent.unhealthy o → clock_ok o) :
    timing_ok (check_and_handle st sid ev).1 := by
  cases ev with
  | healthy => exact ht
  | unhealthy o => exact handle_failure_timing st sid o hb ht (hc o rfl)
  | probe_error e => exact ht

lemma run_cycle_ids_bounded :
    ∀ (entries : List (Nat × ProbeEvent)) (st : OrchestratorState),
      ids_bounded st → ids_bounded (run_cycle st entries).1 := by
  intro entries
  induction entries with
  | nil => intro st hb; exact hb
  | cons p rest ih =>
    intro st hb
    obtain ⟨sid, ev⟩ := p
    exact ih _ (cah_ids_bounded st sid ev hb)

lemma run_cycle_mem :
    ∀ (entries : List (Nat × ProbeEvent)) (st : OrchestratorState),
      ids_bounded st →
      ∀ inc ∈ st.active_incidents,
        inc ∈ (run_cycle st entries).1.active_incidents := by
  intro entries
  induction entries with
  | nil => intro st _ inc hm; exact hm
  | cons p rest ih =>
    intro st hb inc hm
    obtain ⟨sid, ev⟩ := p
    exact ih _ (cah_ids_bounded st sid ev hb) inc (cah_mem st sid ev hb inc hm)

lemma run_cycle_dedup_ok :
    ∀ (entries : List (Nat × ProbeEvent)) (st : OrchestratorState),
      ids_bounded st → dedup_ok st → dedup_ok (run_cycle st entries).1 := by
  intro entries
  induction entries with
  | nil => intro st _ hd; exact hd
  | cons p rest ih =>
    intro st hb hd
    obtain ⟨sid, ev⟩ := p
    exact ih _ (cah_ids_bounded st sid ev hb) (cah_dedup_ok st sid ev hb hd)

lemma run_cycle_timing :
    ∀ (entries : List (Nat × ProbeEvent)) (st : OrchestratorState),
      ids_bounded st → timing_ok st →
      (∀ p ∈ entries, ∀ o : CheckOutcome,
        p.2 = ProbeEvent.unhealthy o → clock_ok o) →
      timing_ok (run_cycle st entries).1 := by
  intro entries
  induction entries with
  | nil => intro st _ ht _; exact ht
  | cons p rest ih =>
    intro st hb ht hc
    obtain ⟨sid, ev⟩ := p
    refine ih _ (cah_ids_bounded st sid ev hb) ?_ ?_
    · exact cah_timing st sid ev hb ht
        (fun o ho => hc (sid, ev) (List.mem_cons_self _ _) o ho)
    · exact fun q hq o ho => hc q (List.mem_cons_of_mem _ hq) o ho

lemma run_cycles_ids_bounded :
    ∀ (script : List (List (Nat × ProbeEvent))) (st : OrchestratorState),
      ids_bounded st → ids_bounded (run_cycles st script).1 := by
  intro script
  induction script with
  | nil => intro st hb; exact hb
  | cons c rest ih =>
    intro st hb
    have hb2 := run_cycle_ids_bounded c st hb
    show ids_bounded (run_cycles st (c :: rest)).1
    cases hc : (run_cycle st c).2 with
    | ok u =>
      simp only [run_cycles, hc]
      exact ih _ hb2
    | error e =>
      simp only [run_cycles, hc]
      exact hb2

lemma run_cycles_mem :
    ∀ (script : List (List (Nat × ProbeEvent))) (st : OrchestratorState),
      ids_bounded st →
      ∀ inc ∈ st.active_incidents,
        inc ∈ (run_cycles st script).1.active_incidents := by
  intro script
  induction script with
  | nil => intro st _ inc hm; exact hm
  | cons c rest ih =>
    intro st hb inc hm
    have hb2 := run_cycle_ids_bounded c st hb
    have hm2 := run_cycle_mem c st hb inc hm
    cases hc : (run_cycle st c).2 with
    | ok u =>
      simp only [run_cycles, hc]
      exact ih _ hb2 inc hm2
    | error e =>
      simp only [run_cycles, hc]
      exact hm2

lemma run_cycles_dedup_ok :
    ∀ (script : List (List (Nat × ProbeEvent))) (st : OrchestratorState),
      ids_bounded st → dedup_ok st → dedup_ok (run_cycles st script).1 := by
  intro script
  induction script with
  | nil => intro st _ hd; exact hd
  | cons c rest ih =>
    intro st hb hd
    have hb2 := run_cycle_ids_bounded c st hb
    have hd2 := run_cycle_dedup_ok c st hb hd
    cases hc : (run_cycle st c).2 with
    | ok u =>
      simp only [run_cycles, hc]
      exact ih _ hb2 hd2
    | error e =>
      simp only [run_cycles, hc]
      exact hd2

lemma run_cycles_timing :
    ∀ (script : List (List (Nat × ProbeEvent))) (st : OrchestratorState),
      ids_bounded st → timing_ok st → script_clock_ok script →
      timing_ok (run_cycles st script).1 := by
  intro script
  induction script with
  | nil => intro st _ ht _; exact ht
  | cons c rest ih =>
    intro st hb ht hsc
    have hb2 := run_cycle_ids_bounded c st hb
    have ht2 := run_cycle_timing c st hb ht
      (fun p hp o ho => hsc c (List.mem_cons_self _ _) p hp o ho)
    cases hc : (run_cycle st c).2 with
    | ok u =>
      simp only [run_cycles, hc]
      exact ih _ hb2 ht2
        (fun d hd p hp o ho => hsc d (List.mem_cons_of_mem _ hd) p hp o ho)
    | error e =>
      simp only [run_cycles, hc]
      exact ht2

/-- C5: the deduplication invariant — at most one non-terminal incident per
service — is preserved by every orchestrator execution, and injecting
consecutive unhealthy probe results for one service (whose first response
pipeline raises, leaving the incident non-terminal) creates exactly one
incident for that service: the later results are deduplicated. -/
theorem at_most_one_nonterminal_incident :
    (∀ (st : OrchestratorState) (script : List (List (Nat × ProbeEvent))),
      ids_bounded st → dedup_ok st → dedup_ok (run_cycles st script).1) ∧
    (∀ (st : OrchestratorState) (sid : Nat) (os : List CheckOutcome),
      ids_bounded st → has_active_incident st sid = false → os ≠ [] →
      (∀ o ∈ os, o.crew.isError = true) →
      ((inject sid st os).active_incidents.filter
          (fun i => i.service_id == sid)).length =
        (st.active_incidents.filter
          (fun i => i.service_id == sid)).length + 1) := by
  constructor
  · exact fun st script hb hd => run_cycles_dedup_ok script st hb hd
  · intro st sid os hb hf hne hcrew
    cases os with
    | nil => exact absurd rfl hne
    | cons o os =>
      have hoerr : o.crew.isError = true := hcrew o (List.mem_cons_self o os)
      obtain ⟨e, he⟩ : ∃ e, o.crew = PyResult.error e := by
        cases hx : o.crew with
        | ok r =>
          rw [hx] at hoerr
          simp [PyResult.isError] at hoerr
        | error e => exact ⟨e, rfl⟩
      show ((inject sid (handle_failure st sid o).1 os).active_incidents.filter
          (fun i => i.service_id == sid)).length = _
      rw [inject_of_active sid os _
        (handle_failure_active_after_error st sid o e hb hf he)]
      exact handle_failure_count_create st sid o hb hf

/-- Witness for C5: three consecutive unhealthy results with a raising
pipeline create exactly one incident from the empty state. -/
theorem at_most_one_nonterminal_incident_witness :
    ((inject 1 st0 [o_fail, o_fail, o_fail]).active_incidents.filter
        (fun i => i.service_id == 1)).length =
      (st0.active_incidents.filter
        (fun i => i.service_id == 1)).length + 1 :=
  at_most_one_nonterminal_incident.2 st0 1 [o_fail, o_fail, o_fail]
    (by intro inc h; simp [st0] at h) (by decide) (by decide) (by decide)

/-- C8: the per-incident status sequence
`DETECTING, ALERTING, INVESTIGATING(, RESOLVED)` assigned by the response
pipeline is strictly increasing in the progression order, the pipeline's
final status is the last of that sequence, and incidents already stored are
never mutated again by any later orchestrator execution — in particular a
`RESOLVED` incident undergoes no further transition. -/
theorem incident_status_monotone_terminal :
    (∀ crew : PyResult String,
      List.Chain' (fun a b => status_rank a < status_rank b)
        (IncidentStatus.detecting :: trigger_assigned_statuses crew)) ∧
    (∀ (inc : Incident) (crew : PyResult String) (t : Nat),
      (trigger_assigned_statuses crew).getLast? =
        some (trigger_agent_response inc crew t).1.status) ∧
    (∀ (st : OrchestratorState) (script : List (List (Nat × ProbeEvent))),
      ids_bounded st →
      ∀ inc ∈ st.active_incidents,
        inc ∈ (run_cycles st script).1.active_incidents) := by
  refine ⟨?_, ?_, ?_⟩
  · intro crew
    cases crew with
    | ok r =>
      show List.Chain' (fun a b => status_rank a < status_rank b)
        [IncidentStatus.detecting, IncidentStatus.alerting,
          IncidentStatus.investigating, IncidentStatus.resolved]
      simp [List.chain'_cons, status_rank]
    | error e =>
      show List.Chain' (fun a b => status_rank a < status_rank b)
        [IncidentStatus.detecting, IncidentStatus.alerting,
          IncidentStatus.investigating]
      simp [List.chain'_cons, status_rank]
  · intro inc crew t
    cases crew <;> rfl
  · intro st script hb inc hm
    exact run_cycles_mem script st hb inc hm

/-- Witness for C8: the successful pipeline's status chain is strictly
forward, and a stored resolved incident survives a further cycle
unchanged. -/
theorem incident_status_monotone_terminal_witness :
    List.Chain' (fun a b => status_rank a < status_rank b)
      (IncidentStatus.detecting ::
        trigger_assigned_statuses (PyResult.ok "plan")) ∧
    inc_resolved ∈
      (run_cycles st1
        [[(1, ProbeEvent.unhealthy o_ok)]]).1.active_incidents :=
  ⟨incident_status_monotone_terminal.1 (PyResult.ok "plan"),
    incident_status_monotone_terminal.2.2 st1
      [[(1, ProbeEvent.unhealthy o_ok)]]
      (by
        intro inc h
        simp only [st1, List.mem_singleton] at h
        subst h
        decide)
      inc_resolved (by decide)⟩

/-- C9: MTTD is computed at creation (as the clock read minus `detected_at`),
is ≥ 0 under a monotone clock, and is never recomputed by the pipeline; MTTR
is absent at creation and while the incident is not `RESOLVED`, and is set
exactly at resolution to `resolved_at − detected_at`, ≥ 0 under a monotone
clock; every incident stored during any execution satisfies this shape. -/
theorem mttd_mttr_computed_once_nonneg :
    (∀ (id sid : Nat) (o : CheckOutcome),
      (new_incident id sid o).mttd_seconds =
        some ((o.t_mttd : Int) - (o.t_create : Int)) ∧
      (new_incident id sid o).mttr_seconds = none ∧
      (clock_ok o →
        ∃ d, (new_incident id sid o).mttd_seconds = some d ∧ 0 ≤ d)) ∧
    (∀ (inc : Incident) (crew : PyResult String) (t : Nat),
      (trigger_agent_response inc crew t).1.mttd_seconds =
        inc.mttd_seconds ∧
      ((trigger_agent_response inc crew t).1.status =
          IncidentStatus.resolved →
        (trigger_agent_response inc crew t).1.mttr_seconds =
          some ((t : Int) - (inc.detected_at : Int))) ∧
      ((trigger_agent_response inc crew t).1.status ≠
          IncidentStatus.resolved →
        (trigger_agent_response inc crew t).1.mttr_seconds =
          inc.mttr_seconds)) ∧
    (∀ (st : OrchestratorState) (script : List (List (Nat × ProbeEvent))),
      ids_bounded st → timing_ok st → script_clock_ok script →
      timing_ok (run_cycles st script).1) := by
  refine ⟨?_, ?_, ?_⟩
  · intro id sid o
    refine ⟨rfl, rfl, fun hc => ⟨(o.t_mttd : Int) - (o.t_create : Int),
      rfl, ?_⟩⟩
    have := hc.1
    omega
  · intro inc crew t
    cases crew with
    | ok r =>
      exact ⟨trigger_mttd inc (PyResult.ok r) t,
        fun _ => trigger_mttr_ok inc r t,
        fun h => absurd (trigger_status_ok inc r t) h⟩
    | error e =>
      refine ⟨trigger_mttd inc (PyResult.error e) t, ?_,
        fun _ => trigger_mttr_error inc e t⟩
      intro h
      rw [trigger_status_error] at h
      exact absurd h (by decide)
  · intro st script hb ht hsc
    exact run_cycles_timing script st hb ht hsc

/-- Witness for C9: the incident created for `o_ok` has MTTD `11 − 10 = 1 ≥
0` and no MTTR; a full run from the empty state keeps every stored incident
well-timed. -/
theorem mttd_mttr_computed_once_nonneg_witness :
    (new_incident 0 1 o_ok).mttd_seconds =
      some ((o_ok.t_mttd : Int) - (o_ok.t_create : Int)) ∧
    (new_incident 0 1 o_ok).mttr_seconds = none ∧
    (∃ d, (new_incident 0 1 o_ok).mttd_seconds = some d ∧ 0 ≤ d) ∧
    timing_ok (run_cycles st0 [[(1, ProbeEvent.unhealthy o_ok)]]).1 :=
  ⟨(mttd_mttr_computed_once_nonneg.1 0 1 o_ok).1,
    (mttd_mttr_computed_once_nonneg.1 0 1 o_ok).2.1,
    (mttd_mttr_computed_once_nonneg.1 0 1 o_ok).2.2 ⟨by decide, by decide⟩,
    mttd_mttr_computed_once_nonneg.2.2 st0 [[(1, ProbeEvent.unhealthy o_ok)]]
      (by intro inc h; simp [st0] at h)
      (fun inc h => by simp [st0] at h)
      (by
        intro c hc p hp o ho
        simp only [List.mem_singleton] at hc
        subst hc
        simp only [List.mem_singleton] at hp
        subst hp
        injection ho with h
        subst h
        exact ⟨by decide, by decide⟩)⟩

/-- Counterexample to C2 as stated: with service 1's response pipeline
raising in cycle 1 and a second cycle scheduled for service 2, `run()` ends
with the propagated exception — cycle 2 is never executed, no incident for
service 2 exists, and nothing catches or logs the error.  (The incident for
service 1 is frozen at `INVESTIGATING`, which part of the claim does hold.) -/
theorem run_loop_terminated_by_pipeline_failure :
    (run_cycles st0 [[(1, ProbeEvent.unhealthy o_fail)],
        [(2, ProbeEvent.unhealthy o_ok)]]).2 =
      PyResult.error "crew kickoff failed" ∧
    (run_cycles st0 [[(1, ProbeEvent.unhealthy o_fail)],
        [(2, ProbeEvent.unhealthy o_ok)]]).1.active_incidents.map
        (fun i => (i.service_id, i.status)) =
      [(1, IncidentStatus.investigating)] := by
  decide

/-- C2 (amended): when the response pipeline raises, the incident stays in
its last successfully reached state (`INVESTIGATING`, not `RESOLVED`, MTTR
unset) — but the exception is not caught: it propagates out of
`_handle_failure`, so `run()` terminates with it and no further cycle is
scheduled. -/
theorem pipeline_failure_freezes_incident_and_propagates :
    ∀ (st : OrchestratorState) (sid : Nat) (o : CheckOutcome) (e : String),
      o.crew = PyResult.error e →
      has_active_incident st sid = false →
      ids_bounded st →
      ((handle_failure st sid o).2 = PyResult.error e ∧
        ∃ inc, inc ∈ (handle_failure st sid o).1.active_incidents ∧
          inc.service_id = sid ∧
          inc.status = IncidentStatus.investigating ∧
          inc.mttr_seconds = none ∧ inc.resolved_at = none) ∧
      ∀ (rest : List (Nat × ProbeEvent))
        (cycles : List (List (Nat × ProbeEvent))),
        run_cycles st (((sid, ProbeEvent.unhealthy o) :: rest) :: cycles) =
          ((run_cycle st ((sid, ProbeEvent.unhealthy o) :: rest)).1,
            PyResult.error e) := by
  intro st sid o e hcrew hf hb
  have hchar := handle_failure_create_case st sid o hf hb
  have hsnd : (handle_failure st sid o).2 = PyResult.error e := by
    rw [hchar]
    show (trigger_agent_response (new_incident st.next_id sid o)
      o.crew o.t_res).2 = _
    rw [hcrew, trigger_snd_error]
  constructor
  · refine ⟨hsnd, ⟨(trigger_agent_response (new_incident st.next_id sid o)
      o.crew o.t_res).1, ?_, ?_, ?_, ?_, ?_⟩⟩
    · rw [hchar]
      exact List.mem_append_right _ (List.mem_singleton.mpr rfl)
    · rw [trigger_sid, new_incident_sid]
    · rw [hcrew, trigger_status_error]
    · rw [hcrew, trigger_mttr_error]
      rfl
    · rw [hcrew, trigger_resolved_at_error]
      rfl
  · intro rest cycles
    have hcyc : (run_cycle st ((sid, ProbeEvent.unhealthy o) :: rest)).2 =
        PyResult.error e := by
      have h1 : (check_and_handle st sid (ProbeEvent.unhealthy o)).2 =
          PyResult.error e := hsnd
      simp only [run_cycle]
      rw [h1]
    show run_cycles st (((sid, ProbeEvent.unhealthy o) :: rest) :: cycles) = _
    simp only [run_cycles]
    rw [hcyc]

/-- Witness for C2 (amended): the concrete failing pipeline freezes the
incident and ends the run with its exception. -/
theorem pipeline_failure_freezes_incident_and_propagates_witness :
    (handle_failure st0 1 o_fail).2 =
      PyResult.error "crew kickoff failed" ∧
    run_cycles st0 [[(1, ProbeEvent.unhealthy o_fail)]] =
      ((run_cycle st0 [(1, ProbeEvent.unhealthy o_fail)]).1,
        PyResult.error "crew kickoff failed") := by
  have h := pipeline_failure_freezes_incident_and_propagates st0 1 o_fail
    "crew kickoff failed" (by decide) (by decide)
    (by intro inc h; simp [st0] at h)
  exact ⟨h.1.1, h.2 [] []⟩

end Sentinel
